import Mathlib

/-!
Shallow embedding of the workflow layout and connection-inference core of the
single-view workflow diagram application (layout-utils / connection-utils /
WorkflowAPI sections of the source). Coordinates are modelled as exact
rationals; the opaque UI callbacks (`onClick`, `onToggleEntities`) stored in
node data are not modelled, as they carry no data the layout depends on.
-/

namespace Workflow

/-- `WorkflowStage` from the types section of the source. -/
structure WorkflowStage where
  id : String
  title : String
  description : String
  color : Option String
deriving DecidableEq, Repr

/-- `WorkflowStatusNode` from the types section of the source. -/
structure WorkflowStatusNode where
  id : String
  label : String
  color : Option String
  connectedToStage : Option String
  connectedToEntities : Option (List String)
deriving DecidableEq, Repr

/-- `WorkflowEntity` from the types section of the source. -/
structure WorkflowEntity where
  id : String
  title : String
  color : Option String
deriving DecidableEq, Repr

/-- The inline `workflow` record of `WorkflowData`. -/
structure WorkflowDefinition where
  id : String
  title : String
  description : String
deriving DecidableEq, Repr

/-- `WorkflowData`, the aggregate root handed to the layout engine. -/
structure WorkflowData where
  workflow : WorkflowDefinition
  stages : List WorkflowStage
  statusNodes : List WorkflowStatusNode
  entities : List WorkflowEntity
deriving DecidableEq, Repr

/-- `LayoutConfig` from the types section of the source. -/
structure LayoutConfig where
  workflowWidth : ℚ
  workflowHeight : ℚ
  stageWidth : ℚ
  stageHeight : ℚ
  circleSize : ℚ
  padding : ℚ
  verticalSpacing : ℚ
deriving DecidableEq, Repr

/-- `defaultLayoutConfig` from layout-utils. -/
def defaultLayoutConfig : LayoutConfig where
  workflowWidth := 800
  workflowHeight := 450
  stageWidth := 220
  stageHeight := 90
  circleSize := 64
  padding := 30
  verticalSpacing := 40

/-- An `{x, y}` position. -/
structure Pos where
  x : ℚ
  y : ℚ
deriving DecidableEq, Repr

/-- The record returned by `calculateDynamicLayout`: the clamped spacing,
the three row ordinates, and the position closures (which capture the raw,
un-clamped spacing, exactly as in the source). -/
structure DynamicLayout where
  stageSpacing : ℚ
  stageY : ℚ
  circleY : ℚ
  entitiesY : ℚ
  getStagePosition : Nat → Pos
  getCirclePosition : Nat → Pos
  getEntitiesPosition : Unit → Pos

/-- `calculateDynamicLayout` from layout-utils. -/
def calculateDynamicLayout (workflowData : WorkflowData)
    (config : LayoutConfig) : DynamicLayout :=
  let stages := workflowData.stages
  let availableWidth := config.workflowWidth - 2 * config.padding
  let totalStageWidth := (stages.length : ℚ) * config.stageWidth
  let stageSpacing : ℚ :=
    if stages.length > 1 then
      (availableWidth - totalStageWidth) / ((stages.length : ℚ) - 1)
    else 0
  let stageY : ℚ := 70
  let circleY := stageY + config.stageHeight + config.verticalSpacing
  let entitiesY := circleY + config.circleSize + config.verticalSpacing
  { stageSpacing := max stageSpacing 20
    stageY := stageY
    circleY := circleY
    entitiesY := entitiesY
    getStagePosition := fun index =>
      ⟨config.padding + (index : ℚ) * (config.stageWidth + stageSpacing), stageY⟩
    getCirclePosition := fun index =>
      ⟨config.padding + (index : ℚ) * (config.stageWidth + stageSpacing)
        + config.stageWidth / 2 - config.circleSize / 2, circleY⟩
    getEntitiesPosition := fun _ => ⟨config.padding, entitiesY⟩ }

/-- The `extent: 'parent'` attribute a child node may carry. -/
inductive NodeExtent where
  | parent
deriving DecidableEq, Repr

/-- The `style` record set on container and stage nodes. -/
structure NodeStyle where
  width : Option ℚ
  height : Option ℚ
deriving DecidableEq, Repr

/-- `WorkflowNodeData`, without the opaque `onClick` / `onToggleEntities`
callbacks (closures carrying no layout-relevant data). -/
structure WorkflowNodeDataM where
  title : String
  description : Option String
  type : String
  items : Option (List String)
  entities : Option (List WorkflowEntity)
  entitiesExpanded : Option Bool
  isSelected : Option Bool
  color : Option String
deriving DecidableEq, Repr

/-- `CircularNodeData`, without the opaque `onClick` callback. -/
structure CircularNodeDataM where
  label : String
  color : Option String
deriving DecidableEq, Repr

/-- The `data` payload of a node: either workflow-shaped or circular-shaped. -/
inductive NodeData where
  | workflowD : WorkflowNodeDataM → NodeData
  | circularD : CircularNodeDataM → NodeData
deriving DecidableEq, Repr

/-- A React Flow `Node` as constructed by `createDynamicNodes`. -/
structure Node where
  id : String
  type : String
  position : Pos
  data : NodeData
  parentId : Option String
  extent : Option NodeExtent
  style : Option NodeStyle
  draggable : Bool
deriving DecidableEq, Repr

/-- `createDynamicNodes` from layout-utils: pmf-tag, workflow container,
one stage node per stage, one circular node per status node, and the
entities-group node. -/
def createDynamicNodes (workflowData : WorkflowData)
    (entitiesExpanded : Bool) (config : LayoutConfig) : List Node :=
  let layout := calculateDynamicLayout workflowData config
  let pmfTag : Node :=
    { id := "pmf-tag", type := "pmf-tag", position := ⟨20, 20⟩
      data := .workflowD
        { title := "PMF", description := none, type := "pmf-tag"
          items := none, entities := none, entitiesExpanded := none
          isSelected := none, color := none }
      parentId := none, extent := none, style := none, draggable := true }
  let container : Node :=
    { id := workflowData.workflow.id, type := "workflow", position := ⟨20, 60⟩
      data := .workflowD
        { title := workflowData.workflow.title
          description := some workflowData.workflow.description
          type := "workflow", items := none, entities := none
          entitiesExpanded := none, isSelected := none, color := none }
      parentId := none, extent := none
      style := some ⟨some config.workflowWidth, some config.workflowHeight⟩
      draggable := true }
  let stageNodes : List Node := workflowData.stages.enum.map fun p =>
    { id := p.2.id, type := "stage"
      position := layout.getStagePosition p.1
      data := .workflowD
        { title := p.2.title, description := some p.2.description
          type := "stage", items := none, entities := none
          entitiesExpanded := none, isSelected := none, color := p.2.color }
      parentId := some workflowData.workflow.id, extent := some .parent
      style := some ⟨some config.stageWidth, some config.stageHeight⟩
      draggable := true }
  let circularNodes : List Node := workflowData.statusNodes.enum.map fun p =>
    { id := p.2.id, type := "circular"
      position := layout.getCirclePosition p.1
      data := .circularD { label := p.2.label, color := p.2.color }
      parentId := some workflowData.workflow.id, extent := some .parent
      style := none, draggable := true }
  let entitiesGroup : Node :=
    { id := "entities-group", type := "entities-group"
      position := layout.getEntitiesPosition ()
      data := .workflowD
        { title := "Data Entities", description := none
          type := "entities-group", items := none
          entities := some workflowData.entities
          entitiesExpanded := some entitiesExpanded
          isSelected := none, color := none }
      parentId := some workflowData.workflow.id, extent := some .parent
      style := none, draggable := true }
  [pmfTag, container] ++ stageNodes ++ circularNodes ++ [entitiesGroup]

/-- The `style` record set on edges. -/
structure EdgeStyle where
  stroke : String
  strokeWidth : ℚ
deriving DecidableEq, Repr

/-- A React Flow `Edge` as constructed by the connection utilities. -/
structure Edge where
  id : String
  source : String
  target : String
  style : Option EdgeStyle
  type : Option String
deriving DecidableEq, Repr

/-- The body of the per-stage `forEach` in `generateIntelligentConnections`:
find the status node declaring `connectedToStage == stage.id`, fall back to
the status node at the same index (JS `||`), and emit an edge when one
exists. -/
def stageEdgeFor (statusNodes : List WorkflowStatusNode)
    (index : Nat) (stage : WorkflowStage) : Option Edge :=
  match (statusNodes.find? fun status =>
      status.connectedToStage == some stage.id).orElse
      (fun _ => statusNodes.get? index) with
  | some correspondingStatus => some
      { id := stage.id ++ "-to-" ++ correspondingStatus.id
        source := stage.id, target := correspondingStatus.id
        style := some ⟨"#000", 1⟩, type := some "smoothstep" }
  | none => none

/-- The body of the per-status-node `forEach` in
`generateIntelligentConnections`: connect each status node to the stage at
the next index, when it exists. -/
def statusEdgeFor (stages : List WorkflowStage)
    (index : Nat) (statusNode : WorkflowStatusNode) : Option Edge :=
  match stages.get? (index + 1) with
  | some nextStage => some
      { id := statusNode.id ++ "-to-" ++ nextStage.id
        source := statusNode.id, target := nextStage.id
        style := some ⟨"#666", 1⟩, type := some "smoothstep" }
  | none => none

/-- `generateIntelligentConnections` from connection-utils: the stage→status
edges of the first loop followed by the status→next-stage edges of the
second loop. -/
def generateIntelligentConnections (workflowData : WorkflowData) : List Edge :=
  (workflowData.stages.enum.filterMap fun p =>
    stageEdgeFor workflowData.statusNodes p.1 p.2) ++
  (workflowData.statusNodes.enum.filterMap fun p =>
    statusEdgeFor workflowData.stages p.1 p.2)

/-- `updateConnectionsForWorkflow` from connection-utils: freshly inferred
edges first, then the existing edges whose id collides with no inferred
edge. -/
def updateConnectionsForWorkflow (workflowData : WorkflowData)
    (existingEdges : List Edge) : List Edge :=
  let newConnections := generateIntelligentConnections workflowData
  let customEdges := existingEdges.filter fun edge =>
    !(newConnections.any fun newEdge => newEdge.id == edge.id)
  newConnections ++ customEdges

/-- A JSON-like JavaScript value, used to model the untyped payload that
`WorkflowAPI.fetchWorkflow` receives from the backend before validation. -/
inductive JSValue where
  | nullV : JSValue
  | undefinedV : JSValue
  | boolV : Bool → JSValue
  | numV : ℚ → JSValue
  | strV : String → JSValue
  | arrV : List JSValue → JSValue
  | objV : List (String × JSValue) → JSValue

/-- JavaScript truthiness of a value (`!v` in the source negates this). -/
def truthy : JSValue → Bool
  | .nullV => false
  | .undefinedV => false
  | .boolV b => b
  | .numV q => q != 0
  | .strV s => s != ""
  | .arrV _ => true
  | .objV _ => true

/-- JavaScript property access `v.k`: the first binding of `k` on an object,
`undefined` otherwise. -/
def getField : JSValue → String → JSValue
  | .objV fields, k =>
    match fields.find? fun f => f.1 == k with
    | some f => f.2
    | none => .undefinedV
  | _, _ => .undefinedV

/-- The response-validation step inside `WorkflowAPI.fetchWorkflow`:
`if (!data.workflow || !data.stages || !data.statusNodes || !data.entities)`
then `throw new Error('Invalid workflow data format from backend')`, else
the data is returned unchanged. -/
def fetchWorkflowValidate (data : JSValue) : Except String JSValue :=
  if !truthy (getField data "workflow") || !truthy (getField data "stages")
      || !truthy (getField data "statusNodes")
      || !truthy (getField data "entities") then
    .error "Invalid workflow data format from backend"
  else
    .ok data

/-- Concrete sample workflow header used by the concrete-input theorems. -/
def sampleDef : WorkflowDefinition :=
  { id := "wf-1", title := "Sample Workflow", description := "sample" }

/-- A stage with the given id and no color. -/
def mkStage (i : String) : WorkflowStage :=
  { id := i, title := "Stage " ++ i, description := "stage " ++ i, color := none }

/-- A status node with the given id and no explicit `connectedToStage`. -/
def mkStatus (i : String) : WorkflowStatusNode :=
  { id := i, label := "Status " ++ i, color := none
    connectedToStage := none, connectedToEntities := none }

/-- Two stages `A`, `B` and two status nodes `s1`, `s2` with no explicit
links: the positional-fallback scenario. -/
def dataAB : WorkflowData :=
  { workflow := sampleDef
    stages := [mkStage "A", mkStage "B"]
    statusNodes := [mkStatus "s1", mkStatus "s2"]
    entities := [] }

/-- A workflow with `n` stages named `st1 … stn` and no status nodes. -/
def nStageData (n : Nat) : WorkflowData :=
  { workflow := sampleDef
    stages := (List.range n).map fun i => mkStage ("st" ++ toString (i + 1))
    statusNodes := []
    entities := [] }

/-- The degenerate workflow: no stages, no status nodes, no entities. -/
def emptyData : WorkflowData :=
  { workflow := sampleDef, stages := [], statusNodes := [], entities := [] }

/-- One stage, one status node, one entity: used to exercise the
entity-expansion toggle. -/
def entData : WorkflowData :=
  { workflow := sampleDef
    stages := [mkStage "A"]
    statusNodes := [mkStatus "s1"]
    entities := [{ id := "ent1", title := "Entity 1", color := none }] }

/-- A manually drawn edge whose id collides with no inferred edge. -/
def customEdge : Edge :=
  { id := "custom-1", source := "X", target := "Y", style := none, type := none }

/-- A workflow with no stages but one status node. -/
def noStagesData : WorkflowData :=
  { workflow := sampleDef, stages := [], statusNodes := [mkStatus "s1"]
    entities := [] }

/-- The stage node that `createDynamicNodes` emits for stage `A` of
`entData` (stage index 0, so `x = padding = 30`, `y = stageY = 70`). -/
def stageANode : Node :=
  { id := "A", type := "stage", position := ⟨30, 70⟩
    data := .workflowD
      { title := "Stage A", description := some "stage A", type := "stage"
        items := none, entities := none, entitiesExpanded := none
        isSelected := none, color := none }
    parentId := some "wf-1", extent := some .parent
    style := some ⟨some 220, some 90⟩, draggable := true }

/-- A backend payload whose `stages` field is present and truthy but not
list-shaped (the number 42). -/
def badShapeData : JSValue :=
  .objV [("workflow", .objV []), ("stages", .numV 42),
    ("statusNodes", .arrV []), ("entities", .arrV [])]

/-- A backend payload with no `stages` field at all. -/
def missingStagesData : JSValue :=
  .objV [("workflow", .objV []), ("statusNodes", .arrV []),
    ("entities", .arrV [])]

end Workflow

namespace Workflow

/-- C1 (counterexample): with the default config and 4 stages (a stage count
inside the claimed range [1,10]), the horizontal extents of consecutive
stage cards 0 and 1 overlap: `getStagePosition` uses the raw un-clamped
spacing, which is (740 − 880)/3 < 0, so stage 1 starts before stage 0
ends. -/
theorem C1_counterexample_overlap_at_4_stages :
    (nStageData 4).stages.length = 4 ∧
    ((calculateDynamicLayout (nStageData 4) defaultLayoutConfig).getStagePosition 1).x <
      ((calculateDynamicLayout (nStageData 4) defaultLayoutConfig).getStagePosition 0).x
        + defaultLayoutConfig.stageWidth := by
  norm_num [calculateDynamicLayout, nStageData, defaultLayoutConfig, max_def]

/-- C1 (amended): with the default config, for every workflow with between
1 and 10 stages, the `stageSpacing` field returned by
`calculateDynamicLayout` is at least 20; and for every workflow with at
most 3 stages, the horizontal extents of consecutive stage cards returned
by `getStagePosition` do not overlap (for 4 or more stages the raw spacing
used by the position closure is negative and consecutive cards do
overlap). -/
theorem C1_spacing_and_nonoverlap (d : WorkflowData)
    (h1 : 1 ≤ d.stages.length) (h10 : d.stages.length ≤ 10) :
    20 ≤ (calculateDynamicLayout d defaultLayoutConfig).stageSpacing ∧
    (d.stages.length ≤ 3 → ∀ i : Nat, i + 1 < d.stages.length →
      ((calculateDynamicLayout d defaultLayoutConfig).getStagePosition i).x
          + defaultLayoutConfig.stageWidth ≤
        ((calculateDynamicLayout d defaultLayoutConfig).getStagePosition (i + 1)).x) := by
  constructor
  · simp only [calculateDynamicLayout]
    exact le_max_right _ _
  · intro h3 i hi
    have h2 : d.stages.length = 2 ∨ d.stages.length = 3 := by omega
    rcases h2 with h2 | h2 <;>
      simp only [calculateDynamicLayout, h2, defaultLayoutConfig] <;>
      push_cast <;> ring_nf <;> norm_num

/-- C1 (witness): the amended theorem applied to the concrete 2-stage
workflow. -/
theorem C1_spacing_and_nonoverlap_witness :
    20 ≤ (calculateDynamicLayout (nStageData 2) defaultLayoutConfig).stageSpacing ∧
    ((calculateDynamicLayout (nStageData 2) defaultLayoutConfig).getStagePosition 0).x
        + defaultLayoutConfig.stageWidth ≤
      ((calculateDynamicLayout (nStageData 2) defaultLayoutConfig).getStagePosition 1).x :=
  ⟨(C1_spacing_and_nonoverlap (nStageData 2) (by norm_num [nStageData])
      (by norm_num [nStageData])).1,
   (C1_spacing_and_nonoverlap (nStageData 2) (by norm_num [nStageData])
      (by norm_num [nStageData])).2 (by norm_num [nStageData]) 0
      (by norm_num [nStageData])⟩

/-- C2 (counterexample): with the default config and 3 stages, the stage
spacing is 40, not 20, and stages 1 and 2 sit at x = 290 and x = 550, not
at x = 270 and x = 510: the claim's arithmetic `(740 − 660)/2 = 20` is
wrong, the quotient is 40. -/
theorem C2_counterexample_spacing_is_40 :
    (calculateDynamicLayout (nStageData 3) defaultLayoutConfig).stageSpacing ≠ 20 ∧
    ((calculateDynamicLayout (nStageData 3) defaultLayoutConfig).getStagePosition 1).x ≠ 270 ∧
    ((calculateDynamicLayout (nStageData 3) defaultLayoutConfig).getStagePosition 2).x ≠ 510 := by
  norm_num [calculateDynamicLayout, nStageData, defaultLayoutConfig, max_def]

/-- C2 (amended): with `workflowWidth = 800`, `padding = 30`,
`stageWidth = 220` and exactly 3 stages, `availableWidth = 740`, total
stage width = 660, the stage spacing is `(740 − 660)/2 = 40`, and
`getStagePosition` returns x = 30, 290 and 550 for stages 0, 1 and 2. -/
theorem C2_three_stage_scenario :
    defaultLayoutConfig.workflowWidth - 2 * defaultLayoutConfig.padding = 740 ∧
    ((nStageData 3).stages.length : ℚ) * defaultLayoutConfig.stageWidth = 660 ∧
    (calculateDynamicLayout (nStageData 3) defaultLayoutConfig).stageSpacing
      = (740 - 660) / 2 ∧
    (calculateDynamicLayout (nStageData 3) defaultLayoutConfig).stageSpacing = 40 ∧
    ((calculateDynamicLayout (nStageData 3) defaultLayoutConfig).getStagePosition 0).x = 30 ∧
    ((calculateDynamicLayout (nStageData 3) defaultLayoutConfig).getStagePosition 1).x = 290 ∧
    ((calculateDynamicLayout (nStageData 3) defaultLayoutConfig).getStagePosition 2).x = 550 := by
  norm_num [calculateDynamicLayout, nStageData, defaultLayoutConfig, max_def]

/-- C6 (counterexample): for a single-stage workflow the `stageSpacing`
field returned by `calculateDynamicLayout` is `max 0 20 = 20`, not 0 as
the claim states. -/
theorem C6_counterexample_spacing_at_one_stage :
    (nStageData 1).stages.length ≤ 1 ∧
    (calculateDynamicLayout (nStageData 1) defaultLayoutConfig).stageSpacing ≠ 0 := by
  norm_num [calculateDynamicLayout, nStageData, defaultLayoutConfig, max_def]

/-- C6 (amended): for every workflow and config, the returned
`stageSpacing` equals `max ((availableWidth − N·stageWidth)/(N−1)) 20`
when `N > 1` (with `availableWidth = workflowWidth − 2·padding`), and
equals 20 (the clamp of the internal guard value 0) when `N ≤ 1`; the
`N ≤ 1` branch never divides, so no division by zero occurs. -/
theorem C6_stageSpacing_formula (d : WorkflowData) (cfg : LayoutConfig) :
    (1 < d.stages.length →
      (calculateDynamicLayout d cfg).stageSpacing =
        max ((cfg.workflowWidth - 2 * cfg.padding
            - (d.stages.length : ℚ) * cfg.stageWidth)
          / ((d.stages.length : ℚ) - 1)) 20) ∧
    (d.stages.length ≤ 1 → (calculateDynamicLayout d cfg).stageSpacing = 20) := by
  constructor
  · intro h
    simp only [calculateDynamicLayout, if_pos h]
  · intro h
    have h2 : ¬ d.stages.length > 1 := by omega
    simp only [calculateDynamicLayout, if_neg h2]
    norm_num

/-- C3: on `stages = [A, B]`, `statusNodes = [s1, s2]` with no explicit
links, `generateIntelligentConnections` produces exactly the edges A→s1
(id `A-to-s1`), s1→B (id `s1-to-B`) and B→s2 (id `B-to-s2`) and nothing
else (stated as a permutation of the output list, which is
`[A-to-s1, B-to-s2, s1-to-B]`); and in general the stage at index `i`
pairs with the first status node declaring `connectedToStage = stage.id`,
falls back to the status node at index `i` when none declares a link, and
contributes no edge when neither exists. -/
theorem C3_positional_fallback_connections :
    ((generateIntelligentConnections dataAB).Perm
      [{ id := "A-to-s1", source := "A", target := "s1",
         style := some ⟨"#000", 1⟩, type := some "smoothstep" },
       { id := "s1-to-B", source := "s1", target := "B",
         style := some ⟨"#666", 1⟩, type := some "smoothstep" },
       { id := "B-to-s2", source := "B", target := "s2",
         style := some ⟨"#000", 1⟩, type := some "smoothstep" }]) ∧
    (∀ d : WorkflowData, ∀ i : Nat, ∀ stage : WorkflowStage,
      d.stages.get? i = some stage →
      ((∀ status : WorkflowStatusNode,
          d.statusNodes.find?
            (fun s => s.connectedToStage == some stage.id) = some status →
          ({ id := stage.id ++ "-to-" ++ status.id, source := stage.id
             target := status.id, style := some ⟨"#000", 1⟩
             type := some "smoothstep" } : Edge) ∈
            generateIntelligentConnections d) ∧
       (d.statusNodes.find?
            (fun s => s.connectedToStage == some stage.id) = none →
        ∀ status : WorkflowStatusNode, d.statusNodes.get? i = some status →
          ({ id := stage.id ++ "-to-" ++ status.id, source := stage.id
             target := status.id, style := some ⟨"#000", 1⟩
             type := some "smoothstep" } : Edge) ∈
            generateIntelligentConnections d) ∧
       (d.statusNodes.find?
            (fun s => s.connectedToStage == some stage.id) = none →
        d.statusNodes.get? i = none →
          stageEdgeFor d.statusNodes i stage = none))) := by
  constructor
  · have h : generateIntelligentConnections dataAB =
        [{ id := "A-to-s1", source := "A", target := "s1",
           style := some ⟨"#000", 1⟩, type := some "smoothstep" },
         { id := "B-to-s2", source := "B", target := "s2",
           style := some ⟨"#000", 1⟩, type := some "smoothstep" },
         { id := "s1-to-B", source := "s1", target := "B",
           style := some ⟨"#666", 1⟩, type := some "smoothstep" }] := rfl
    rw [h]
    exact List.Perm.cons _ (List.Perm.swap _ _ _)
  · intro d i stage hget
    have hmem : (i, stage) ∈ d.stages.enum := by
      rw [List.get?_eq_getElem?] at hget
      exact List.mk_mem_enum_iff_getElem?.mpr hget
    refine ⟨?_, ?_, ?_⟩
    · intro status hfind
      apply List.mem_append_left
      apply List.mem_filterMap.mpr
      refine ⟨(i, stage), hmem, ?_⟩
      simp [stageEdgeFor, hfind, Option.orElse]
    · intro hfind status hstat
      rw [List.get?_eq_getElem?] at hstat
      apply List.mem_append_left
      apply List.mem_filterMap.mpr
      refine ⟨(i, stage), hmem, ?_⟩
      simp [stageEdgeFor, hfind, hstat, Option.orElse]
    · intro hfind hstat
      rw [List.get?_eq_getElem?] at hstat
      simp [stageEdgeFor, hfind, hstat, Option.orElse]

/-- C3 (witness): the general fallback clause applied to `dataAB` at stage
`A`, index 0, status node `s1`. -/
theorem C3_positional_fallback_connections_witness :
    ({ id := "A-to-s1", source := "A", target := "s1",
       style := some ⟨"#000", 1⟩, type := some "smoothstep" } : Edge) ∈
      generateIntelligentConnections dataAB :=
  ((C3_positional_fallback_connections.2 dataAB 0 (mkStage "A") rfl).2.1
    rfl (mkStatus "s1") rfl)

/-- C4: `updateConnectionsForWorkflow` equals the inferred edges followed
by the existing edges whose id collides with no inferred id; an existing
edge colliding with no inferred id is preserved verbatim, every inferred
edge appears in the result, and an existing edge whose id collides with an
inferred edge (without being that edge) is dropped. -/
theorem C4_merge_policy (d : WorkflowData) (e : List Edge) :
    updateConnectionsForWorkflow d e =
      generateIntelligentConnections d ++
        (e.filter fun edge =>
          !((generateIntelligentConnections d).any fun newEdge =>
            newEdge.id == edge.id)) ∧
    (∀ edge ∈ e,
      (∀ newEdge ∈ generateIntelligentConnections d, newEdge.id ≠ edge.id) →
      edge ∈ updateConnectionsForWorkflow d e) ∧
    (∀ newEdge ∈ generateIntelligentConnections d,
      newEdge ∈ updateConnectionsForWorkflow d e) ∧
    (∀ edge ∈ e, edge ∉ generateIntelligentConnections d →
      (∃ newEdge ∈ generateIntelligentConnections d, newEdge.id = edge.id) →
      edge ∉ updateConnectionsForWorkflow d e) := by
  refine ⟨rfl, ?_, ?_, ?_⟩
  · intro edge he hid
    apply List.mem_append_right
    apply List.mem_filter.mpr
    refine ⟨he, ?_⟩
    simp only [Bool.not_eq_eq_eq_not, Bool.not_true, List.any_eq_false]
    intro n hn
    simpa using hid n hn
  · intro newEdge hn
    exact List.mem_append_left _ hn
  · intro edge he hnot hcol hmem
    rcases List.mem_append.mp hmem with h | h
    · exact hnot h
    · rcases hcol with ⟨n, hn, hid⟩
      have hpred := (List.mem_filter.mp h).2
      simp only [Bool.not_eq_eq_eq_not, Bool.not_true, List.any_eq_false]
        at hpred
      exact absurd (by simpa using hid) (by simpa using hpred n hn)

/-- C4 (witness): the custom edge `custom-1`, whose id collides with no
edge inferred from `dataAB`, is preserved verbatim by the merge. -/
theorem C4_merge_policy_witness :
    customEdge ∈ updateConnectionsForWorkflow dataAB [customEdge] :=
  (C4_merge_policy dataAB [customEdge]).2.1 customEdge (by simp)
    (by intro n hn; fin_cases hn <;> simp [customEdge, mkStage, mkStatus])

/-- C9: `updateConnectionsForWorkflow` is idempotent in its edge argument:
re-merging its own output changes nothing (same edges, same order). -/
theorem C9_update_idempotent (d : WorkflowData) (e : List Edge) :
    updateConnectionsForWorkflow d (updateConnectionsForWorkflow d e) =
      updateConnectionsForWorkflow d e := by
  unfold updateConnectionsForWorkflow
  simp only [List.filter_append]
  have h1 : ((generateIntelligentConnections d).filter fun edge =>
      !((generateIntelligentConnections d).any fun newEdge =>
        newEdge.id == edge.id)) = [] := by
    apply List.filter_eq_nil_iff.mpr
    intro a ha
    have h : ((generateIntelligentConnections d).any fun newEdge =>
        newEdge.id == a.id) = true := List.any_eq_true.mpr ⟨a, ha, by simp⟩
    simp [h]
  rw [h1]
  have h2 : ((e.filter fun edge =>
      !((generateIntelligentConnections d).any fun newEdge =>
        newEdge.id == edge.id)).filter fun edge =>
      !((generateIntelligentConnections d).any fun newEdge =>
        newEdge.id == edge.id)) =
      e.filter fun edge =>
      !((generateIntelligentConnections d).any fun newEdge =>
        newEdge.id == edge.id) := by
    rw [List.filter_filter]
    simp [Bool.and_self]
  rw [List.nil_append, h2]

/-- C6 (witness): the amended formula evaluated at a 2-stage and a 1-stage
workflow with the default config. -/
theorem C6_stageSpacing_formula_witness :
    (calculateDynamicLayout (nStageData 2) defaultLayoutConfig).stageSpacing =
      max ((defaultLayoutConfig.workflowWidth - 2 * defaultLayoutConfig.padding
          - ((nStageData 2).stages.length : ℚ) * defaultLayoutConfig.stageWidth)
        / (((nStageData 2).stages.length : ℚ) - 1)) 20 ∧
    (calculateDynamicLayout (nStageData 1) defaultLayoutConfig).stageSpacing = 20 :=
  ⟨(C6_stageSpacing_formula (nStageData 2) defaultLayoutConfig).1
      (by norm_num [nStageData]),
   (C6_stageSpacing_formula (nStageData 1) defaultLayoutConfig).2
      (by norm_num [nStageData])⟩

/-- C5 (counterexample): on a workflow with one entity, toggling
`entitiesExpanded` from false to true adds no node at all: the node id
lists of the two calls are identical, the lengths are equal, and no node
with the entity's id `ent1` exists in the expanded output. -/
theorem C5_counterexample_no_entity_nodes_added :
    ((createDynamicNodes entData true defaultLayoutConfig).map fun n => n.id) =
      ((createDynamicNodes entData false defaultLayoutConfig).map fun n => n.id) ∧
    (createDynamicNodes entData true defaultLayoutConfig).length =
      (createDynamicNodes entData false defaultLayoutConfig).length ∧
    "ent1" ∉ (createDynamicNodes entData true defaultLayoutConfig).map
      fun n => n.id := by
  refine ⟨rfl, rfl, ?_⟩
  decide

/-- C5 (amended): toggling `entitiesExpanded` leaves every node's id, type
and (x, y) position unchanged — in particular every stage and circular
node's position — and in both states the entities group occupies exactly
one node slot, carrying the expansion flag only inside its data; no child
entity node is produced in either state. -/
theorem C5_expansion_leaves_positions_unchanged (d : WorkflowData)
    (cfg : LayoutConfig) (b1 b2 : Bool) :
    ((createDynamicNodes d b1 cfg).map fun n => (n.id, n.type, n.position)) =
      ((createDynamicNodes d b2 cfg).map fun n => (n.id, n.type, n.position)) ∧
    (∃ n ∈ createDynamicNodes d b1 cfg, n.id = "entities-group" ∧
      n.data = .workflowD
        { title := "Data Entities", description := none
          type := "entities-group", items := none
          entities := some d.entities, entitiesExpanded := some b1
          isSelected := none, color := none }) := by
  constructor
  · simp [createDynamicNodes]
  · refine ⟨{ id := "entities-group", type := "entities-group",
              position := (calculateDynamicLayout d cfg).getEntitiesPosition (),
              data := .workflowD
                { title := "Data Entities", description := none,
                  type := "entities-group", items := none,
                  entities := some d.entities, entitiesExpanded := some b1,
                  isSelected := none, color := none },
              parentId := some d.workflow.id, extent := some .parent,
              style := none, draggable := true }, ?_, rfl, rfl⟩
    simp [createDynamicNodes]

/-- C7 (counterexample): a payload whose `stages` field is the number 42 —
present and truthy but not list-shaped — passes the validation in
`WorkflowAPI.fetchWorkflow` unchanged, so a malformed-shape field does not
fail fast with a validation error. -/
theorem C7_counterexample_truthy_non_list_accepted :
    fetchWorkflowValidate badShapeData = .ok badShapeData := rfl

/-- C7 (amended): if any of the four required fields (`workflow`, `stages`,
`statusNodes`, `entities`) of the fetched payload is absent or otherwise
falsy, `WorkflowAPI.fetchWorkflow` fails fast with the error
`Invalid workflow data format from backend` and returns no data, so no
layout is attempted on the payload; the check is truthiness only and does
not reject truthy non-list values. -/
theorem C7_validation_rejects_missing_fields (data : JSValue)
    (h : truthy (getField data "workflow") = false ∨
         truthy (getField data "stages") = false ∨
         truthy (getField data "statusNodes") = false ∨
         truthy (getField data "entities") = false) :
    fetchWorkflowValidate data =
      Except.error "Invalid workflow data format from backend" := by
  unfold fetchWorkflowValidate
  rcases h with h | h | h | h <;> simp [h]

/-- C7 (witness): a payload with no `stages` field is rejected with the
validation error. -/
theorem C7_validation_rejects_missing_fields_witness :
    fetchWorkflowValidate missingStagesData =
      Except.error "Invalid workflow data format from backend" :=
  C7_validation_rejects_missing_fields missingStagesData (by right; left; rfl)

/-- C8 (counterexample): on the degenerate workflow with no stages (and no
status nodes or entities), `createDynamicNodes` emits three nodes — the
pmf-tag, the container and the entities-group — not the container only. -/
theorem C8_counterexample_three_nodes_not_one :
    ((createDynamicNodes emptyData false defaultLayoutConfig).map
      fun n => (n.id, n.type)) =
      [("pmf-tag", "pmf-tag"), ("wf-1", "workflow"),
       ("entities-group", "entities-group")] ∧
    (createDynamicNodes emptyData false defaultLayoutConfig).length = 3 :=
  ⟨rfl, rfl⟩

/-- C8 (amended): for every workflow whose stages list is empty, the layout
engine emits the pmf-tag, the container, one circular node per status node
and the entities-group node (and no stage node), and
`generateIntelligentConnections` returns the empty edge list; neither
operation raises an error. -/
theorem C8_zero_stages_degenerate (d : WorkflowData) (b : Bool)
    (cfg : LayoutConfig) (h : d.stages = []) :
    ((createDynamicNodes d b cfg).map fun n => (n.id, n.type)) =
      [("pmf-tag", "pmf-tag"), (d.workflow.id, "workflow")] ++
        (d.statusNodes.map fun s => (s.id, "circular")) ++
        [("entities-group", "entities-group")] ∧
    generateIntelligentConnections d = [] := by
  constructor
  · have key : (d.statusNodes.enum.map fun p =>
        ((p.2.id : String), ("circular" : String))) =
        d.statusNodes.map fun s => (s.id, "circular") := by
      rw [show (fun p : Nat × WorkflowStatusNode =>
          ((p.2.id : String), ("circular" : String))) =
          (fun s : WorkflowStatusNode => (s.id, "circular")) ∘ Prod.snd from rfl]
      rw [← List.map_map, List.enum_map_snd]
    simp [createDynamicNodes, h, List.map_map, Function.comp]
    convert key using 1
  · simp only [generateIntelligentConnections, h, List.enum_nil,
      List.filterMap_nil, List.nil_append]
    apply List.filterMap_eq_nil_iff.mpr
    intro p hp
    simp [statusEdgeFor, h]

/-- C8 (witness): the amended theorem applied to a workflow with no stages
and one status node `s1`. -/
theorem C8_zero_stages_degenerate_witness :
    ((createDynamicNodes noStagesData false defaultLayoutConfig).map
      fun n => (n.id, n.type)) =
      [("pmf-tag", "pmf-tag"), ("wf-1", "workflow"), ("s1", "circular"),
       ("entities-group", "entities-group")] ∧
    generateIntelligentConnections noStagesData = [] := by
  have h := C8_zero_stages_degenerate noStagesData false defaultLayoutConfig rfl
  simpa [noStagesData, sampleDef, mkStatus] using h

/-- C10: `createDynamicNodes` always returns `3 + stages.length +
statusNodes.length` nodes, whose types in order are pmf-tag, workflow, one
`stage` per stage, one `circular` per status node, and entities-group;
every stage, circular and entities-group node carries
`parentId = workflow.id` and `extent = parent`; and every node's type is
one of the five listed types, so no per-entity node is ever emitted
regardless of the expansion flag. -/
theorem C10_node_census (d : WorkflowData) (b : Bool) (cfg : LayoutConfig) :
    (createDynamicNodes d b cfg).length =
      3 + d.stages.length + d.statusNodes.length ∧
    ((createDynamicNodes d b cfg).map fun n => n.type) =
      ["pmf-tag", "workflow"] ++ (d.stages.map fun _ => "stage")
        ++ (d.statusNodes.map fun _ => "circular") ++ ["entities-group"] ∧
    (∀ n ∈ createDynamicNodes d b cfg,
      n.type = "stage" ∨ n.type = "circular" ∨ n.type = "entities-group" →
        n.parentId = some d.workflow.id ∧ n.extent = some NodeExtent.parent) ∧
    (∀ n ∈ createDynamicNodes d b cfg,
      n.type = "pmf-tag" ∨ n.type = "workflow" ∨ n.type = "stage" ∨
        n.type = "circular" ∨ n.type = "entities-group") := by
  refine ⟨?_, ?_, ?_, ?_⟩
  · simp [createDynamicNodes, List.enum_length]
    omega
  · simp only [createDynamicNodes, List.map_append, List.map_map,
      List.map_cons, List.map_nil]
    rw [show ((fun n : Node => n.type) ∘ fun p : Nat × WorkflowStage =>
        ({ id := p.2.id, type := "stage",
           position := (calculateDynamicLayout d cfg).getStagePosition p.1,
           data := .workflowD
             { title := p.2.title, description := some p.2.description,
               type := "stage", items := none, entities := none,
               entitiesExpanded := none, isSelected := none,
               color := p.2.color },
           parentId := some d.workflow.id, extent := some .parent,
           style := some ⟨some cfg.stageWidth, some cfg.stageHeight⟩,
           draggable := true } : Node)) =
        (fun _ => "stage") from rfl]
    rw [show ((fun n : Node => n.type) ∘ fun p : Nat × WorkflowStatusNode =>
        ({ id := p.2.id, type := "circular",
           position := (calculateDynamicLayout d cfg).getCirclePosition p.1,
           data := .circularD { label := p.2.label, color := p.2.color },
           parentId := some d.workflow.id, extent := some .parent,
           style := none, draggable := true } : Node)) =
        (fun _ => "circular") from rfl]
    simp [List.map_const, List.enum_length]
  · intro n hn htype
    simp only [createDynamicNodes, List.cons_append, List.nil_append,
      List.mem_cons, List.mem_append, List.mem_map, List.mem_singleton,
      List.not_mem_nil, or_false] at hn
    rcases hn with rfl | rfl | (⟨p, hp, rfl⟩ | ⟨p, hp, rfl⟩) | rfl
    · rcases htype with h | h | h <;> simp at h
    · rcases htype with h | h | h <;> simp at h
    · exact ⟨rfl, rfl⟩
    · exact ⟨rfl, rfl⟩
    · exact ⟨rfl, rfl⟩
  · intro n hn
    simp only [createDynamicNodes, List.cons_append, List.nil_append,
      List.mem_cons, List.mem_append, List.mem_map, List.mem_singleton,
      List.not_mem_nil, or_false] at hn
    rcases hn with rfl | rfl | (⟨p, hp, rfl⟩ | ⟨p, hp, rfl⟩) | rfl
    · left; rfl
    · right; left; rfl
    · right; right; left; rfl
    · right; right; right; left; rfl
    · right; right; right; right; rfl

/-- C10 (witness): the parent-containment clause applied to the concrete
stage node emitted for stage `A` of `entData`. -/
theorem C10_node_census_witness :
    stageANode.parentId = some "wf-1" ∧
    stageANode.extent = some NodeExtent.parent := by
  have h := (C10_node_census entData true defaultLayoutConfig).2.2.1
  have hmem : stageANode ∈ createDynamicNodes entData true defaultLayoutConfig := by
    simp [createDynamicNodes, entData, sampleDef, mkStage, mkStatus,
      calculateDynamicLayout, defaultLayoutConfig, stageANode]
  have h2 := h stageANode hmem (Or.inl rfl)
  simpa [entData, sampleDef] using h2

end Workflow
